import Mathlib

/-!
Shallow embedding of three source files of the aiIntergrator repository:

* `process_audio.py` — an audio-transcription helper built around a hosted
  speech-recognition service.  External effects (client construction, the
  file read, and the recognition call) are modelled as an explicit
  environment `SpeechEnv`; the recognition service itself is a black box.
* `surface/ai/model_garden/models/list_deployment_config.py` — the
  `ListDeployMentConfig` CLI command.  The model-garden client is modelled
  as an environment `MgEnv`.
* `generated_clients/apis/seclm/v1/seclm_v1_client.py` — the autogenerated
  `SeclmV1` REST client stub.  The transport layer (`_RunMethod`) is
  modelled as an environment `ApiClientEnv`.

Python strings are Lean `String`s; the Python builtins used by the code
(`str.lower`, `str.split`, `str.strip`) are embedded at the `List Char`
level so that every definition computes inside the kernel.  A raised
Python exception is an `Except.error` carrying the exception text.
-/

/-! ## Embedding of the Python string builtins used by the sources -/

/-- Embedding of ASCII lowercasing of one character, as performed by
Python's `str.lower` on the ASCII range: the letters `A`-`Z` (code points
65-90) map to code point + 32, every other character is unchanged. -/
def pyCharLower (c : Char) : Char :=
  if 65 ≤ c.toNat ∧ c.toNat ≤ 90 then Char.ofNat (c.toNat + 32) else c

/-- Embedding of Python's `str.lower`: lowercase every character. -/
def pyLower (s : String) : String := String.mk (s.data.map pyCharLower)

/-- Embedding of Python's `str.split(sep)` for a one-character separator,
at the `List Char` level: the list of groups between occurrences of the
separator, empty groups kept, so that `splitOnChar sep []` is `[[]]`. -/
def splitOnChar (sep : Char) : List Char → List (List Char)
  | [] => [[]]
  | c :: cs =>
    if c = sep then [] :: splitOnChar sep cs
    else
      match splitOnChar sep cs with
      | [] => [[c]]
      | g :: gs => (c :: g) :: gs

/-- Embedding of Python's `str.split(sep)` for a one-character separator. -/
def pySplit (s : String) (sep : Char) : List String :=
  (splitOnChar sep s.data).map String.mk

/-- Embedding of Python's `str.strip()`: remove leading and trailing
whitespace. -/
def pyStrip (s : String) : String :=
  String.mk (((s.data.dropWhile Char.isWhitespace).reverse.dropWhile
    Char.isWhitespace).reverse)

/-! ## Data model of `process_audio.py` -/

/-- File contents are a list of byte values. -/
abbrev Bytes := List Nat

/-- The audio encodings used by the helper; the source only ever
constructs `LINEAR16`. -/
inductive AudioEncoding where
  | LINEAR16
  deriving DecidableEq

/-- The `speech_v1.RecognitionAudio` request message: it carries the raw
audio bytes. -/
structure RecognitionAudio where
  content : Bytes
  deriving DecidableEq

/-- The `speech_v1.RecognitionConfig` request message, with the four
fields the source sets. -/
structure RecognitionConfig where
  encoding : AudioEncoding
  sample_rate_hertz : Nat
  language_code : String
  enable_automatic_punctuation : Bool
  deriving DecidableEq

/-- One recognition alternative of a result; the source reads its
`transcript` field. -/
structure SpeechRecognitionAlternative where
  transcript : String
  deriving DecidableEq

/-- One result of a recognition response, with its list of
alternatives. -/
structure SpeechRecognitionResult where
  alternatives : List SpeechRecognitionAlternative
  deriving DecidableEq

/-- The response of `client.recognize`: a list of results. -/
structure RecognizeResponse where
  results : List SpeechRecognitionResult
  deriving DecidableEq

/-- The external world of `process_audio`: constructing the
`SpeechClient`, reading the file at a path, and the recognition service
itself, each of which may raise (modelled as `Except.error` carrying the
exception text `str(e)`). -/
structure SpeechEnv where
  speechClient : Except String Unit
  readFile : String → Except String Bytes
  recognize : RecognitionConfig → RecognitionAudio → Except String RecognizeResponse

/-- A record of one invocation of `client.recognize`: the config and
audio arguments it was given. -/
structure RecognizeCall where
  config : RecognitionConfig
  audio : RecognitionAudio
  deriving DecidableEq

/-- The fixed `RecognitionConfig` literal constructed by
`process_audio`: LINEAR16 encoding, 44100 Hz, `en-US`, automatic
punctuation enabled. -/
def fixedRecognitionConfig : RecognitionConfig :=
  { encoding := AudioEncoding.LINEAR16
    sample_rate_hertz := 44100
    language_code := "en-US"
    enable_automatic_punctuation := true }

/-- The result-extraction loop of `process_audio`:
`for result in response.results: transcription += result.alternatives[0].transcript + " "`.
Indexing `alternatives[0]` on an empty list raises `IndexError`. -/
def extractTranscription : List SpeechRecognitionResult → String → Except String String
  | [], transcription => Except.ok transcription
  | result :: rest, transcription =>
    match result.alternatives with
    | [] => Except.error "list index out of range"
    | alt :: _ => extractTranscription rest (transcription ++ alt.transcript ++ " ")

/-- The body of the `try:` block of `process_audio`, step by step in
source order: construct the client, read the file, build the request
messages, call `client.recognize`, run the extraction loop, and strip the
result.  Returns the outcome of the body together with the list of
`client.recognize` invocations that were made. -/
def processAudioRun (env : SpeechEnv) (audio_file_path : String) :
    Except String String × List RecognizeCall :=
  match env.speechClient with
  | Except.error e => (Except.error e, [])
  | Except.ok _ =>
    match env.readFile audio_file_path with
    | Except.error e => (Except.error e, [])
    | Except.ok content =>
      let audio : RecognitionAudio := { content := content }
      let config : RecognitionConfig := fixedRecognitionConfig
      match env.recognize config audio with
      | Except.error e => (Except.error e, [{ config := config, audio := audio }])
      | Except.ok response =>
        match extractTranscription response.results "" with
        | Except.error e => (Except.error e, [{ config := config, audio := audio }])
        | Except.ok transcription =>
          (Except.ok (pyStrip transcription), [{ config := config, audio := audio }])

/-- `process_audio`: the whole body runs inside a single
`try/except Exception`; on success the stripped transcription is
returned, on any exception the handler prints
`f"Error processing audio: {str(e)}"` and returns `None`.  The value is
the pair of the Python return value and the list of printed lines. -/
def process_audio (env : SpeechEnv) (audio_file_path : String) :
    Option String × List String :=
  match processAudioRun env audio_file_path with
  | (Except.ok transcription, _) => (some transcription, [])
  | (Except.error e, _) => (none, ["Error processing audio: " ++ e])

/-- Spec-side formulation of the transcription format: the concatenation
of `result.alternatives[0].transcript` followed by one space, over the
results in response order. -/
def transcriptConcat (results : List SpeechRecognitionResult) : String :=
  results.foldr
    (fun result acc => (result.alternatives.headD { transcript := "" }).transcript ++ " " ++ acc)
    ""

/-! ## Data model of `list_deployment_config.py` -/

/-- The two command-line arguments of the `ListDeployMentConfig` command
(a mutually exclusive, required group). -/
structure MgArgs where
  hugging_face_model : Option String
  model : Option String

/-- The `multiDeployVertex` message of `supportedActions`; its own
`multiDeployVertex` field carries the deployment configurations, of some
type `μ` that the command never inspects. -/
structure MultiDeployVertexMsg (μ : Type) where
  multiDeployVertex : μ

/-- The `supportedActions` message of a publisher model; the
`multiDeployVertex` sub-message may be absent, in which case attribute
access on it raises `AttributeError`. -/
structure SupportedActions (μ : Type) where
  multiDeployVertex : Option (MultiDeployVertexMsg μ)

/-- A response of `GetPublisherModel`; `supportedActions` may be absent. -/
structure PublisherModel (μ : Type) where
  supportedActions : Option (SupportedActions μ)

/-- The model-garden client as a black box: `GetPublisherModel` takes the
model resource name and the `is_hugging_face_model` flag and returns a
`PublisherModel`. -/
structure MgEnv (μ : Type) where
  getPublisherModel : String → Bool → PublisherModel μ

/-- A record of one invocation of `GetPublisherModel`. -/
structure GetPublisherModelCall where
  model_name : String
  is_hugging_face_model : Bool

/-- Outcome of running the command: a returned value, a raised
`core_exceptions.Error`, or an uncaught Python exception propagating. -/
inductive CliOutcome (μ : Type) where
  | ok (v : μ)
  | coreError (msg : String)
  | pyError (msg : String)

/-- The message of the `core_exceptions.Error` raised when the model does
not support deployment (the adjacent string literals of the source
concatenated). -/
def multiDeployErrorMsg : String :=
  "Model does not support deployment, please enter a deploy-able model instead. You can use the `gcloud ai model-garden models list` command to find out which ones are currently supported by the `deploy` command."

/-- The attribute access
`publisher_model.supportedActions.multiDeployVertex.multiDeployVertex`:
accessing an attribute of an absent (`None`) message raises
`AttributeError`. -/
def accessMultiDeploy {μ : Type} (publisher_model : PublisherModel μ) : Except String μ :=
  match publisher_model.supportedActions with
  | none => Except.error "AttributeError"
  | some sa =>
    match sa.multiDeployVertex with
    | none => Except.error "AttributeError"
    | some mdv => Except.ok mdv.multiDeployVertex

/-- The `try/except AttributeError` block of `_GetMultiDeploy`: on
`AttributeError` it raises `core_exceptions.Error` with
`multiDeployErrorMsg`, otherwise it returns the accessed value. -/
def tryGetMultiDeploy {μ : Type} (publisher_model : PublisherModel μ) : CliOutcome μ :=
  match accessMultiDeploy publisher_model with
  | Except.ok v => CliOutcome.ok v
  | Except.error _ => CliOutcome.coreError multiDeployErrorMsg

/-- The body of `_GetMultiDeploy`: if `--hugging-face-model` is set,
lowercase it, split on `/` into exactly two parts and call
`GetPublisherModel` with name
`publishers/{publisher_name}/models/{model_name}` and
`is_hugging_face_model=True`; otherwise lowercase `--model`, split on `/`
into exactly three parts and call `GetPublisherModel` with name
`publishers/{publisher_name}/models/{model_name}@{model_version_name}`.
A tuple-unpacking mismatch raises `ValueError`; `--model` being `None`
raises `AttributeError`.  Returns the outcome together with the list of
`GetPublisherModel` invocations made. -/
def GetMultiDeployRun {μ : Type} (env : MgEnv μ) (args : MgArgs) :
    CliOutcome μ × List GetPublisherModelCall :=
  match args.hugging_face_model with
  | some hf =>
    match pySplit (pyLower hf) '/' with
    | [publisher_name, model_name] =>
      let name := "publishers/" ++ publisher_name ++ "/models/" ++ model_name
      (tryGetMultiDeploy (env.getPublisherModel name true),
       [{ model_name := name, is_hugging_face_model := true }])
    | _ => (CliOutcome.pyError "ValueError: unpacking mismatch", [])
  | none =>
    match args.model with
    | none => (CliOutcome.pyError "AttributeError: NoneType has no attribute lower", [])
    | some m =>
      match pySplit (pyLower m) '/' with
      | [publisher_name, model_name, model_version_name] =>
        let name := "publishers/" ++ publisher_name ++ "/models/" ++ model_name
          ++ "@" ++ model_version_name
        (tryGetMultiDeploy (env.getPublisherModel name false),
         [{ model_name := name, is_hugging_face_model := false }])
      | _ => (CliOutcome.pyError "ValueError: unpacking mismatch", [])

/-- Modelled from the spec: `validation.ValidateModelGardenModelArgs` and
the argparse mutex group are not part of this excerpt.  Per the flag
declarations (a required, mutually exclusive group) and the documented
argument formats, validated arguments set exactly one of the two flags,
with `--hugging-face-model` of the form `publisher/model` and `--model`
of the form `publisher/model/version`. -/
def ValidateModelGardenModelArgs (args : MgArgs) : Bool :=
  match args.hugging_face_model, args.model with
  | some hf, none => (pySplit (pyLower hf) '/').length == 2
  | none, some m => (pySplit (pyLower m) '/').length == 3
  | _, _ => false

/-- `ListDeployMentConfig.Run`: validate the arguments, then (inside the
endpoint-override context, which has no bearing on the computed value)
return `_GetMultiDeploy(args, version)`. -/
def ListDeployMentConfig_Run {μ : Type} (env : MgEnv μ) (args : MgArgs) :
    CliOutcome μ × List GetPublisherModelCall :=
  if ValidateModelGardenModelArgs args then GetMultiDeployRun env args
  else (CliOutcome.pyError "argument validation failed", [])

/-! ## Data model of `seclm_v1_client.py` -/

/-- The `base_api.ApiMethodInfo` configuration record, with the eleven
fields the generated client sets for every method. -/
structure ApiMethodInfo where
  flat_path : String
  http_method : String
  method_id : String
  ordered_params : List String
  path_params : List String
  query_params : List String
  relative_path : String
  request_field : String
  request_type_name : String
  response_type_name : String
  supports_download : Bool
  deriving DecidableEq

/-- The transport layer of the generated client as a black box:
`_RunMethod` maps a method configuration, a request and the optional
global parameters to a response. -/
structure ApiClientEnv (Req Resp GP : Type) where
  runMethod : ApiMethodInfo → Req → Option GP → Resp

/-- Method configuration of `ProjectsLocationsOperationsService.Cancel`. -/
def Operations_Cancel_method_config : ApiMethodInfo :=
  { flat_path := "v1/projects/{projectsId}/locations/{locationsId}/operations/{operationsId}:cancel"
    http_method := "POST"
    method_id := "seclm.projects.locations.operations.cancel"
    ordered_params := ["name"]
    path_params := ["name"]
    query_params := []
    relative_path := "v1/{+name}:cancel"
    request_field := "cancelOperationRequest"
    request_type_name := "SeclmProjectsLocationsOperationsCancelRequest"
    response_type_name := "Empty"
    supports_download := false }

/-- Method configuration of `ProjectsLocationsOperationsService.Delete`. -/
def Operations_Delete_method_config : ApiMethodInfo :=
  { flat_path := "v1/projects/{projectsId}/locations/{locationsId}/operations/{operationsId}"
    http_method := "DELETE"
    method_id := "seclm.projects.locations.operations.delete"
    ordered_params := ["name"]
    path_params := ["name"]
    query_params := []
    relative_path := "v1/{+name}"
    request_field := ""
    request_type_name := "SeclmProjectsLocationsOperationsDeleteRequest"
    response_type_name := "Empty"
    supports_download := false }

/-- Method configuration of `ProjectsLocationsOperationsService.Get`. -/
def Operations_Get_method_config : ApiMethodInfo :=
  { flat_path := "v1/projects/{projectsId}/locations/{locationsId}/operations/{operationsId}"
    http_method := "GET"
    method_id := "seclm.projects.locations.operations.get"
    ordered_params := ["name"]
    path_params := ["name"]
    query_params := []
    relative_path := "v1/{+name}"
    request_field := ""
    request_type_name := "SeclmProjectsLocationsOperationsGetRequest"
    response_type_name := "Operation"
    supports_download := false }

/-- Method configuration of `ProjectsLocationsOperationsService.List`. -/
def Operations_List_method_config : ApiMethodInfo :=
  { flat_path := "v1/projects/{projectsId}/locations/{locationsId}/operations"
    http_method := "GET"
    method_id := "seclm.projects.locations.operations.list"
    ordered_params := ["name"]
    path_params := ["name"]
    query_params := ["filter", "pageSize", "pageToken"]
    relative_path := "v1/{+name}/operations"
    request_field := ""
    request_type_name := "SeclmProjectsLocationsOperationsListRequest"
    response_type_name := "ListOperationsResponse"
    supports_download := false }

/-- Method configuration of `ProjectsLocationsWorkbenchesService.Create`. -/
def Workbenches_Create_method_config : ApiMethodInfo :=
  { flat_path := "v1/projects/{projectsId}/locations/{locationsId}/workbenches"
    http_method := "POST"
    method_id := "seclm.projects.locations.workbenches.create"
    ordered_params := ["parent"]
    path_params := ["parent"]
    query_params := ["requestId", "workbenchId"]
    relative_path := "v1/{+parent}/workbenches"
    request_field := "workbench"
    request_type_name := "SeclmProjectsLocationsWorkbenchesCreateRequest"
    response_type_name := "Operation"
    supports_download := false }

/-- Method configuration of `ProjectsLocationsWorkbenchesService.Delete`. -/
def Workbenches_Delete_method_config : ApiMethodInfo :=
  { flat_path := "v1/projects/{projectsId}/locations/{locationsId}/workbenches/{workbenchesId}"
    http_method := "DELETE"
    method_id := "seclm.projects.locations.workbenches.delete"
    ordered_params := ["name"]
    path_params := ["name"]
    query_params := ["requestId"]
    relative_path := "v1/{+name}"
    request_field := ""
    request_type_name := "SeclmProjectsLocationsWorkbenchesDeleteRequest"
    response_type_name := "Operation"
    supports_download := false }

/-- Method configuration of `ProjectsLocationsWorkbenchesService.Get`. -/
def Workbenches_Get_method_config : ApiMethodInfo :=
  { flat_path := "v1/projects/{projectsId}/locations/{locationsId}/workbenches/{workbenchesId}"
    http_method := "GET"
    method_id := "seclm.projects.locations.workbenches.get"
    ordered_params := ["name"]
    path_params := ["name"]
    query_params := []
    relative_path := "v1/{+name}"
    request_field := ""
    request_type_name := "SeclmProjectsLocationsWorkbenchesGetRequest"
    response_type_name := "Workbench"
    supports_download := false }

/-- Method configuration of `ProjectsLocationsWorkbenchesService.List`. -/
def Workbenches_List_method_config : ApiMethodInfo :=
  { flat_path := "v1/projects/{projectsId}/locations/{locationsId}/workbenches"
    http_method := "GET"
    method_id := "seclm.projects.locations.workbenches.list"
    ordered_params := ["parent"]
    path_params := ["parent"]
    query_params := ["filter", "orderBy", "pageSize", "pageToken"]
    relative_path := "v1/{+parent}/workbenches"
    request_field := ""
    request_type_name := "SeclmProjectsLocationsWorkbenchesListRequest"
    response_type_name := "ListWorkbenchesResponse"
    supports_download := false }

/-- Method configuration of `ProjectsLocationsWorkbenchesService.Patch`. -/
def Workbenches_Patch_method_config : ApiMethodInfo :=
  { flat_path := "v1/projects/{projectsId}/locations/{locationsId}/workbenches/{workbenchesId}"
    http_method := "PATCH"
    method_id := "seclm.projects.locations.workbenches.patch"
    ordered_params := ["name"]
    path_params := ["name"]
    query_params := ["requestId", "updateMask"]
    relative_path := "v1/{+name}"
    request_field := "workbench"
    request_type_name := "SeclmProjectsLocationsWorkbenchesPatchRequest"
    response_type_name := "Operation"
    supports_download := false }

/-- Method configuration of `ProjectsLocationsWorkbenchesService.Query`. -/
def Workbenches_Query_method_config : ApiMethodInfo :=
  { flat_path := "v1/projects/{projectsId}/locations/{locationsId}/workbenches/{workbenchesId}:query"
    http_method := "POST"
    method_id := "seclm.projects.locations.workbenches.query"
    ordered_params := ["name"]
    path_params := ["name"]
    query_params := []
    relative_path := "v1/{+name}:query"
    request_field := "workbenchQueryRequest"
    request_type_name := "SeclmProjectsLocationsWorkbenchesQueryRequest"
    response_type_name := "WorkbenchQueryResponse"
    supports_download := false }

/-- Method configuration of `ProjectsLocationsService.Get`. -/
def Locations_Get_method_config : ApiMethodInfo :=
  { flat_path := "v1/projects/{projectsId}/locations/{locationsId}"
    http_method := "GET"
    method_id := "seclm.projects.locations.get"
    ordered_params := ["name"]
    path_params := ["name"]
    query_params := []
    relative_path := "v1/{+name}"
    request_field := ""
    request_type_name := "SeclmProjectsLocationsGetRequest"
    response_type_name := "Location"
    supports_download := false }

/-- Method configuration of `ProjectsLocationsService.List`. -/
def Locations_List_method_config : ApiMethodInfo :=
  { flat_path := "v1/projects/{projectsId}/locations"
    http_method := "GET"
    method_id := "seclm.projects.locations.list"
    ordered_params := ["name"]
    path_params := ["name"]
    query_params := ["filter", "pageSize", "pageToken"]
    relative_path := "v1/{+name}/locations"
    request_field := ""
    request_type_name := "SeclmProjectsLocationsListRequest"
    response_type_name := "ListLocationsResponse"
    supports_download := false }

/-- The method table of `ProjectsLocationsOperationsService`. -/
def operationsServiceMethodTable : List (String × ApiMethodInfo) :=
  [("Cancel", Operations_Cancel_method_config),
   ("Delete", Operations_Delete_method_config),
   ("Get", Operations_Get_method_config),
   ("List", Operations_List_method_config)]

/-- The method table of `ProjectsLocationsWorkbenchesService`. -/
def workbenchesServiceMethodTable : List (String × ApiMethodInfo) :=
  [("Create", Workbenches_Create_method_config),
   ("Delete", Workbenches_Delete_method_config),
   ("Get", Workbenches_Get_method_config),
   ("List", Workbenches_List_method_config),
   ("Patch", Workbenches_Patch_method_config),
   ("Query", Workbenches_Query_method_config)]

/-- The method table of `ProjectsLocationsService`. -/
def locationsServiceMethodTable : List (String × ApiMethodInfo) :=
  [("Get", Locations_Get_method_config),
   ("List", Locations_List_method_config)]

/-- Modelled from the spec: `base_api.BaseApiService.GetMethodConfig` of
the apitools runtime is not part of this excerpt; per the autogenerated
stub's use, it resolves a method name to that method's fixed
`ApiMethodInfo`. -/
def GetMethodConfig (table : List (String × ApiMethodInfo)) (method : String) :
    Option ApiMethodInfo :=
  table.lookup method

/-- `ProjectsLocationsOperationsService.Cancel`. -/
def Operations_Cancel {Req Resp GP : Type} (env : ApiClientEnv Req Resp GP)
    (request : Req) (global_params : Option GP) : Option Resp :=
  (GetMethodConfig operationsServiceMethodTable "Cancel").map
    (fun config => env.runMethod config request global_params)

/-- `ProjectsLocationsOperationsService.Delete`. -/
def Operations_Delete {Req Resp GP : Type} (env : ApiClientEnv Req Resp GP)
    (request : Req) (global_params : Option GP) : Option Resp :=
  (GetMethodConfig operationsServiceMethodTable "Delete").map
    (fun config => env.runMethod config request global_params)

/-- `ProjectsLocationsOperationsService.Get`. -/
def Operations_Get {Req Resp GP : Type} (env : ApiClientEnv Req Resp GP)
    (request : Req) (global_params : Option GP) : Option Resp :=
  (GetMethodConfig operationsServiceMethodTable "Get").map
    (fun config => env.runMethod config request global_params)

/-- `ProjectsLocationsOperationsService.List`. -/
def Operations_List {Req Resp GP : Type} (env : ApiClientEnv Req Resp GP)
    (request : Req) (global_params : Option GP) : Option Resp :=
  (GetMethodConfig operationsServiceMethodTable "List").map
    (fun config => env.runMethod config request global_params)

/-- `ProjectsLocationsWorkbenchesService.Create`. -/
def Workbenches_Create {Req Resp GP : Type} (env : ApiClientEnv Req Resp GP)
    (request : Req) (global_params : Option GP) : Option Resp :=
  (GetMethodConfig workbenchesServiceMethodTable "Create").map
    (fun config => env.runMethod config request global_params)

/-- `ProjectsLocationsWorkbenchesService.Delete`. -/
def Workbenches_Delete {Req Resp GP : Type} (env : ApiClientEnv Req Resp GP)
    (request : Req) (global_params : Option GP) : Option Resp :=
  (GetMethodConfig workbenchesServiceMethodTable "Delete").map
    (fun config => env.runMethod config request global_params)

/-- `ProjectsLocationsWorkbenchesService.Get`. -/
def Workbenches_Get {Req Resp GP : Type} (env : ApiClientEnv Req Resp GP)
    (request : Req) (global_params : Option GP) : Option Resp :=
  (GetMethodConfig workbenchesServiceMethodTable "Get").map
    (fun config => env.runMethod config request global_params)

/-- `ProjectsLocationsWorkbenchesService.List`. -/
def Workbenches_List {Req Resp GP : Type} (env : ApiClientEnv Req Resp GP)
    (request : Req) (global_params : Option GP) : Option Resp :=
  (GetMethodConfig workbenchesServiceMethodTable "List").map
    (fun config => env.runMethod config request global_params)

/-- `ProjectsLocationsWorkbenchesService.Patch`. -/
def Workbenches_Patch {Req Resp GP : Type} (env : ApiClientEnv Req Resp GP)
    (request : Req) (global_params : Option GP) : Option Resp :=
  (GetMethodConfig workbenchesServiceMethodTable "Patch").map
    (fun config => env.runMethod config request global_params)

/-- `ProjectsLocationsWorkbenchesService.Query`. -/
def Workbenches_Query {Req Resp GP : Type} (env : ApiClientEnv Req Resp GP)
    (request : Req) (global_params : Option GP) : Option Resp :=
  (GetMethodConfig workbenchesServiceMethodTable "Query").map
    (fun config => env.runMethod config request global_params)

/-- `ProjectsLocationsService.Get`. -/
def Locations_Get {Req Resp GP : Type} (env : ApiClientEnv Req Resp GP)
    (request : Req) (global_params : Option GP) : Option Resp :=
  (GetMethodConfig locationsServiceMethodTable "Get").map
    (fun config => env.runMethod config request global_params)

/-- `ProjectsLocationsService.List`. -/
def Locations_List {Req Resp GP : Type} (env : ApiClientEnv Req Resp GP)
    (request : Req) (global_params : Option GP) : Option Resp :=
  (GetMethodConfig locationsServiceMethodTable "List").map
    (fun config => env.runMethod config request global_params)

/-! ## Concrete fixtures used by the witness theorems -/

/-- A world in which the recognition service is unavailable but the file
read succeeds. -/
def sampleEnvA : SpeechEnv :=
  { speechClient := Except.ok ()
    readFile := fun _ => Except.ok [1, 2, 3]
    recognize := fun _ _ => Except.error "service unavailable" }

/-- A world in which the recognition call raises with message `boom`. -/
def sampleEnvB : SpeechEnv :=
  { speechClient := Except.ok ()
    readFile := fun _ => Except.ok [4, 5]
    recognize := fun _ _ => Except.error "boom" }

/-- A world in which recognition succeeds with an empty result list. -/
def sampleEnvC : SpeechEnv :=
  { speechClient := Except.ok ()
    readFile := fun _ => Except.ok [7]
    recognize := fun _ _ => Except.ok { results := [] } }

/-- A second world equal to `sampleEnvC` on the relevant inputs but
different elsewhere. -/
def sampleEnvD : SpeechEnv :=
  { speechClient := Except.ok ()
    readFile := fun p => if p = "y" then Except.ok [7] else Except.error "no such file"
    recognize := fun _ _ => Except.ok { results := [] } }

/-- A model-garden world whose every publisher model supports deployment,
with payload `42`. -/
def sampleMgEnv : MgEnv Nat :=
  { getPublisherModel := fun _ _ =>
      { supportedActions := some { multiDeployVertex := some { multiDeployVertex := 42 } } } }

/-- A model-garden world whose every publisher model lacks
`supportedActions`. -/
def sampleMgEnvNone : MgEnv Nat :=
  { getPublisherModel := fun _ _ => { supportedActions := none } }

/-! ## Helper lemmas about the embedded string builtins -/

theorem charToNat_inj {a b : Char} (h : a.toNat = b.toNat) : a = b := by
  apply Char.eq_of_val_eq
  apply UInt32.eq_of_toBitVec_eq
  have hh : a.val.toBitVec.toNat = b.val.toBitVec.toNat := h
  exact BitVec.eq_of_toNat_eq hh

theorem toNat_ofNat_valid (n : Nat) (h : n < 0xd800) : (Char.ofNat n).toNat = n := by
  unfold Char.ofNat
  have hv : n.isValidChar := Or.inl h
  rw [dif_pos hv]
  unfold Char.ofNatAux Char.toNat
  simp [UInt32.ofNat', UInt32.toNat, BitVec.toNat_ofNat]

theorem toNat_pyCharLower (c : Char) :
    (pyCharLower c).toNat =
      if 65 ≤ c.toNat ∧ c.toNat ≤ 90 then c.toNat + 32 else c.toNat := by
  unfold pyCharLower
  by_cases h : 65 ≤ c.toNat ∧ c.toNat ≤ 90
  · rw [if_pos h, if_pos h, toNat_ofNat_valid]
    omega
  · rw [if_neg h, if_neg h]

theorem pyCharLower_ne_slash {c : Char} (h : c ≠ '/') : pyCharLower c ≠ '/' := by
  intro hc
  have h2 := congrArg Char.toNat hc
  rw [toNat_pyCharLower] at h2
  have h47 : ('/' : Char).toNat = 47 := rfl
  rw [h47] at h2
  by_cases h3 : 65 ≤ c.toNat ∧ c.toNat ≤ 90
  · rw [if_pos h3] at h2
    omega
  · rw [if_neg h3] at h2
    exact h (charToNat_inj (by rw [h2, h47]))

theorem pyCharLower_idem (c : Char) : pyCharLower (pyCharLower c) = pyCharLower c := by
  apply charToNat_inj
  rw [toNat_pyCharLower, toNat_pyCharLower]
  by_cases h : 65 ≤ c.toNat ∧ c.toNat ≤ 90
  · simp only [if_pos h]
    rw [if_neg (by omega)]
  · simp only [if_neg h]

theorem data_pyLower (s : String) : (pyLower s).data = s.data.map pyCharLower := rfl

theorem pyLower_append (s t : String) : pyLower (s ++ t) = pyLower s ++ pyLower t := by
  apply String.ext
  simp [data_pyLower, String.data_append]

theorem pyLower_idem (s : String) : pyLower (pyLower s) = pyLower s := by
  apply String.ext
  simp only [data_pyLower, List.map_map]
  exact List.map_congr_left (fun c _ => pyCharLower_idem c)

theorem splitOnChar_ne_nil (sep : Char) (l : List Char) : splitOnChar sep l ≠ [] := by
  cases l with
  | nil => simp [splitOnChar]
  | cons c cs =>
    unfold splitOnChar
    by_cases h : c = sep
    · simp [h]
    · rw [if_neg h]
      cases splitOnChar sep cs <;> simp

theorem splitOnChar_no_sep (sep : Char) (a : List Char) (h : ∀ c ∈ a, c ≠ sep) :
    splitOnChar sep a = [a] := by
  induction a with
  | nil => rfl
  | cons c cs ih =>
    have hc : c ≠ sep := h c (List.mem_cons_self c cs)
    have hcs : ∀ x ∈ cs, x ≠ sep := fun x hx => h x (List.mem_cons_of_mem c hx)
    unfold splitOnChar
    rw [if_neg hc, ih hcs]

theorem splitOnChar_append_sep (sep : Char) (a b : List Char) (h : ∀ c ∈ a, c ≠ sep) :
    splitOnChar sep (a ++ sep :: b) = a :: splitOnChar sep b := by
  induction a with
  | nil =>
    simp only [List.nil_append]
    simp only [splitOnChar]
    simp
  | cons c cs ih =>
    have hc : c ≠ sep := h c (List.mem_cons_self c cs)
    have hcs : ∀ x ∈ cs, x ≠ sep := fun x hx => h x (List.mem_cons_of_mem c hx)
    simp only [List.cons_append]
    simp only [splitOnChar]
    rw [if_neg hc, ih hcs]

theorem map_pyCharLower_no_slash {l : List Char} (h : ∀ c ∈ l, c ≠ '/') :
    ∀ c ∈ l.map pyCharLower, c ≠ '/' := by
  intro c hc
  obtain ⟨c0, hc0, rfl⟩ := List.mem_map.mp hc
  exact pyCharLower_ne_slash (h c0 hc0)

theorem pySplit_pyLower_two (P M : String)
    (hp : ∀ c ∈ P.data, c ≠ '/') (hm : ∀ c ∈ M.data, c ≠ '/') :
    pySplit (pyLower (P ++ "/" ++ M)) '/' = [pyLower P, pyLower M] := by
  unfold pySplit
  have hdata : (pyLower (P ++ "/" ++ M)).data =
      P.data.map pyCharLower ++ '/' :: M.data.map pyCharLower := by
    simp [data_pyLower, String.data_append]
    rfl
  rw [hdata, splitOnChar_append_sep '/' _ _ (map_pyCharLower_no_slash hp),
    splitOnChar_no_sep '/' _ (map_pyCharLower_no_slash hm)]
  rfl

theorem pySplit_pyLower_three (P M V : String)
    (hp : ∀ c ∈ P.data, c ≠ '/') (hm : ∀ c ∈ M.data, c ≠ '/')
    (hv : ∀ c ∈ V.data, c ≠ '/') :
    pySplit (pyLower (P ++ "/" ++ M ++ "/" ++ V)) '/' =
      [pyLower P, pyLower M, pyLower V] := by
  unfold pySplit
  have hdata : (pyLower (P ++ "/" ++ M ++ "/" ++ V)).data =
      P.data.map pyCharLower ++ '/' ::
        (M.data.map pyCharLower ++ '/' :: V.data.map pyCharLower) := by
    simp [data_pyLower, String.data_append]
    rfl
  rw [hdata, splitOnChar_append_sep '/' _ _ (map_pyCharLower_no_slash hp),
    splitOnChar_append_sep '/' _ _ (map_pyCharLower_no_slash hm),
    splitOnChar_no_sep '/' _ (map_pyCharLower_no_slash hv)]
  rfl

theorem string_append_empty (s : String) : s ++ "" = s := by
  apply String.ext
  simp [String.data_append]

theorem string_empty_append (s : String) : "" ++ s = s := by
  apply String.ext
  simp [String.data_append]

theorem transcriptConcat_cons (r : SpeechRecognitionResult)
    (rs : List SpeechRecognitionResult) :
    transcriptConcat (r :: rs) =
      (r.alternatives.headD { transcript := "" }).transcript ++ " " ++ transcriptConcat rs := by
  simp [transcriptConcat]

theorem extractTranscription_eq (l : List SpeechRecognitionResult) (acc : String)
    (h : ∀ r ∈ l, r.alternatives ≠ []) :
    extractTranscription l acc = Except.ok (acc ++ transcriptConcat l) := by
  induction l generalizing acc with
  | nil =>
    simp only [extractTranscription, transcriptConcat, List.foldr_nil]
    rw [string_append_empty]
  | cons r rs ih =>
    have hr : r.alternatives ≠ [] := h r (List.mem_cons_self r rs)
    have hrs : ∀ x ∈ rs, x.alternatives ≠ [] :=
      fun x hx => h x (List.mem_cons_of_mem r hx)
    obtain ⟨a, as, hra⟩ := List.exists_cons_of_ne_nil hr
    simp only [extractTranscription, hra]
    rw [ih _ hrs, transcriptConcat_cons, hra]
    simp only [List.headD_cons]
    rw [String.append_assoc, String.append_assoc, String.append_assoc]

/-- C1: `process_audio` is a direct pass-through to the recognition
service: `client.recognize` is called at most once per invocation, and
whenever the file read succeeds with bytes `b`, every `recognize` call
carries exactly those bytes in the `RecognitionAudio` request (together
with the fixed `RecognitionConfig`), unmodified. -/
theorem process_audio_passthrough (env : SpeechEnv) (audio_file_path : String) :
    (processAudioRun env audio_file_path).2.length ≤ 1 ∧
    ∀ b : Bytes, env.readFile audio_file_path = Except.ok b →
      ∀ call ∈ (processAudioRun env audio_file_path).2,
        call.config = fixedRecognitionConfig ∧ call.audio.content = b := by
  unfold processAudioRun
  cases env.speechClient with
  | error e => simp
  | ok u =>
    cases hread : env.readFile audio_file_path with
    | error e => simp
    | ok content =>
      cases hrec : env.recognize fixedRecognitionConfig { content := content } with
      | error e =>
        simp only [hrec]
        simp
      | ok response =>
        cases hext : extractTranscription response.results "" with
        | error e =>
          simp only [hrec, hext]
          simp
        | ok transcription =>
          simp only [hrec, hext]
          simp

/-- C1 witness: in `sampleEnvA` the file read returns `[1, 2, 3]`, and
every recognize call of the run carries those bytes. -/
theorem process_audio_passthrough_witness :
    sampleEnvA.readFile "audio.wav" = Except.ok [1, 2, 3] ∧
    ∀ call ∈ (processAudioRun sampleEnvA "audio.wav").2,
      call.config = fixedRecognitionConfig ∧ call.audio.content = [1, 2, 3] :=
  ⟨rfl, (process_audio_passthrough sampleEnvA "audio.wav").2 [1, 2, 3] rfl⟩

/-- C2: the single `try/except` covering the whole body of
`process_audio` catches every exception: the function returns `None`
exactly when some step of the body raised, and in that case it prints
`Error processing audio: ...` with the exception text and returns `None`;
it never propagates the exception. -/
theorem process_audio_catches_all (env : SpeechEnv) (audio_file_path : String) :
    ((process_audio env audio_file_path).1 = none ↔
      ∃ e, (processAudioRun env audio_file_path).1 = Except.error e) ∧
    ∀ e, (processAudioRun env audio_file_path).1 = Except.error e →
      process_audio env audio_file_path = (none, ["Error processing audio: " ++ e]) := by
  unfold process_audio
  cases hrun : processAudioRun env audio_file_path with
  | mk r tr =>
    cases r with
    | ok t => simp
    | error e => simp

/-- C2 witness: in `sampleEnvB` the recognition call raises `boom`; the
function returns `None` and prints the error line. -/
theorem process_audio_catches_all_witness :
    (processAudioRun sampleEnvB "a.wav").1 = Except.error "boom" ∧
    process_audio sampleEnvB "a.wav" = (none, ["Error processing audio: boom"]) :=
  ⟨rfl, (process_audio_catches_all sampleEnvB "a.wav").2 "boom" rfl⟩

/-- C7: on a successful recognition whose every result has at least one
alternative, `process_audio` returns the concatenation of
`result.alternatives[0].transcript` each followed by one space, in
response order, with leading and trailing whitespace stripped; when the
result list is empty it returns the empty string, not `None`. -/
theorem process_audio_transcription_format (env : SpeechEnv)
    (audio_file_path : String) (b : Bytes) (resp : RecognizeResponse)
    (hc : env.speechClient = Except.ok ())
    (hr : env.readFile audio_file_path = Except.ok b)
    (hs : env.recognize fixedRecognitionConfig { content := b } = Except.ok resp)
    (halt : ∀ r ∈ resp.results, r.alternatives ≠ []) :
    (process_audio env audio_file_path).1 =
      some (pyStrip (transcriptConcat resp.results)) ∧
    (resp.results = [] → (process_audio env audio_file_path).1 = some "") := by
  have hbody : processAudioRun env audio_file_path =
      (Except.ok (pyStrip (transcriptConcat resp.results)),
       [{ config := fixedRecognitionConfig, audio := { content := b } }]) := by
    unfold processAudioRun
    rw [hc, hr]
    simp only [hs]
    rw [extractTranscription_eq resp.results "" halt, string_empty_append]
  constructor
  · unfold process_audio
    rw [hbody]
  · intro hnil
    unfold process_audio
    rw [hbody, hnil]
    rfl

/-- C7 witness: in `sampleEnvC` recognition succeeds with an empty result
list, and `process_audio` returns the empty string. -/
theorem process_audio_transcription_format_witness :
    sampleEnvC.recognize fixedRecognitionConfig { content := [7] } =
      Except.ok { results := [] } ∧
    (process_audio sampleEnvC "x.wav").1 = some "" :=
  ⟨rfl,
    (process_audio_transcription_format sampleEnvC "x.wav" [7] { results := [] }
      rfl rfl rfl (by simp)).2 rfl⟩

/-- C8: determinism of the audio helper with the recognition service as a
black box: two runs that read the same bytes and receive the same
recognition response return the same value. -/
theorem process_audio_deterministic (env1 env2 : SpeechEnv) (p1 p2 : String)
    (b : Bytes) (resp : RecognizeResponse)
    (hc1 : env1.speechClient = Except.ok ())
    (hc2 : env2.speechClient = Except.ok ())
    (hr1 : env1.readFile p1 = Except.ok b)
    (hr2 : env2.readFile p2 = Except.ok b)
    (hs1 : env1.recognize fixedRecognitionConfig { content := b } = Except.ok resp)
    (hs2 : env2.recognize fixedRecognitionConfig { content := b } = Except.ok resp) :
    (process_audio env1 p1).1 = (process_audio env2 p2).1 := by
  unfold process_audio processAudioRun
  rw [hc1, hc2, hr1, hr2]
  simp only [hs1, hs2]

/-- C8 witness: `sampleEnvC` on `x.wav` and `sampleEnvD` on `y` read the
same bytes and receive the same response, and return the same value. -/
theorem process_audio_deterministic_witness :
    sampleEnvD.readFile "y" = Except.ok [7] ∧
    (process_audio sampleEnvC "x.wav").1 = (process_audio sampleEnvD "y").1 :=
  ⟨rfl,
    process_audio_deterministic sampleEnvC sampleEnvD "x.wav" "y" [7]
      { results := [] } rfl rfl rfl rfl rfl rfl⟩

theorem run_validated_shape {μ : Type} (env : MgEnv μ) (args : MgArgs)
    (h : ValidateModelGardenModelArgs args = true) :
    ∃ call : GetPublisherModelCall,
      (ListDeployMentConfig_Run env args).2 = [call] ∧
      (ListDeployMentConfig_Run env args).1 =
        tryGetMultiDeploy
          (env.getPublisherModel call.model_name call.is_hugging_face_model) := by
  obtain ⟨ahf, am⟩ := args
  unfold ListDeployMentConfig_Run
  rw [if_pos h]
  unfold ValidateModelGardenModelArgs at h
  cases ahf with
  | some hf =>
    cases am with
    | some m => simp at h
    | none =>
      rcases hsplit : pySplit (pyLower hf) '/' with _ | ⟨a, _ | ⟨b, _ | ⟨c, l⟩⟩⟩ <;>
        simp [hsplit] at h
      simp only [GetMultiDeployRun, hsplit]
      exact ⟨{ model_name := "publishers/" ++ a ++ "/models/" ++ b,
               is_hugging_face_model := true }, rfl, rfl⟩
  | none =>
    cases am with
    | none => simp at h
    | some m =>
      rcases hsplit : pySplit (pyLower m) '/' with _ | ⟨a, _ | ⟨b, _ | ⟨c, _ | ⟨d, l⟩⟩⟩⟩ <;>
        simp [hsplit] at h
      simp only [GetMultiDeployRun, hsplit]
      exact ⟨{ model_name := "publishers/" ++ a ++ "/models/" ++ b ++ "@" ++ c,
               is_hugging_face_model := false }, rfl, rfl⟩

/-- C3: on validated arguments, `ListDeployMentConfig.Run` makes exactly
one `GetPublisherModel` call, and when the
`supportedActions.multiDeployVertex.multiDeployVertex` field of that
call's response is present, the command returns precisely that field's
value, with no further transformation. -/
theorem listDeploymentConfig_single_call {μ : Type} (env : MgEnv μ) (args : MgArgs)
    (h : ValidateModelGardenModelArgs args = true) :
    ∃ call : GetPublisherModelCall,
      (ListDeployMentConfig_Run env args).2 = [call] ∧
      ∀ v : μ,
        accessMultiDeploy
            (env.getPublisherModel call.model_name call.is_hugging_face_model) =
          Except.ok v →
        (ListDeployMentConfig_Run env args).1 = CliOutcome.ok v := by
  obtain ⟨call, h1, h2⟩ := run_validated_shape env args h
  refine ⟨call, h1, ?_⟩
  intro v hv
  rw [h2]
  unfold tryGetMultiDeploy
  rw [hv]

/-- C3 witness: a validated Hugging Face argument leads to exactly one
call, whose present multi-deploy field is returned. -/
theorem listDeploymentConfig_single_call_witness :
    ValidateModelGardenModelArgs
      { hugging_face_model := some "google/Gemma-2", model := none } = true ∧
    ∃ call : GetPublisherModelCall,
      (ListDeployMentConfig_Run sampleMgEnv
          { hugging_face_model := some "google/Gemma-2", model := none }).2 = [call] ∧
      ∀ v : Nat,
        accessMultiDeploy
            (sampleMgEnv.getPublisherModel call.model_name call.is_hugging_face_model) =
          Except.ok v →
        (ListDeployMentConfig_Run sampleMgEnv
            { hugging_face_model := some "google/Gemma-2", model := none }).1 =
          CliOutcome.ok v :=
  ⟨by decide,
    listDeploymentConfig_single_call sampleMgEnv
      { hugging_face_model := some "google/Gemma-2", model := none } (by decide)⟩

/-- C5: the command's only failure handling is the single `try/except`
around the multi-deploy attribute access: on validated arguments, when
the access raises `AttributeError` the command raises an `Error` whose
message starts with `Model does not support deployment`, when the access
succeeds the accessed value is returned, and no other exception outcome
is possible. -/
theorem listDeploymentConfig_error_path {μ : Type} (env : MgEnv μ) (args : MgArgs)
    (h : ValidateModelGardenModelArgs args = true) :
    ∃ call : GetPublisherModelCall,
      (ListDeployMentConfig_Run env args).2 = [call] ∧
      (∀ emsg : String,
        accessMultiDeploy
            (env.getPublisherModel call.model_name call.is_hugging_face_model) =
          Except.error emsg →
        (ListDeployMentConfig_Run env args).1 =
          CliOutcome.coreError multiDeployErrorMsg) ∧
      (∃ rest : String,
        multiDeployErrorMsg = "Model does not support deployment" ++ rest) ∧
      (∀ v : μ,
        accessMultiDeploy
            (env.getPublisherModel call.model_name call.is_hugging_face_model) =
          Except.ok v →
        (ListDeployMentConfig_Run env args).1 = CliOutcome.ok v) ∧
      (∀ m : String,
        (ListDeployMentConfig_Run env args).1 ≠ CliOutcome.pyError m) := by
  obtain ⟨call, h1, h2⟩ := run_validated_shape env args h
  refine ⟨call, h1, ?_, ?_, ?_, ?_⟩
  · intro emsg hacc
    rw [h2]
    unfold tryGetMultiDeploy
    rw [hacc]
  · exact ⟨", please enter a deploy-able model instead. You can use the `gcloud ai model-garden models list` command to find out which ones are currently supported by the `deploy` command.", rfl⟩
  · intro v hacc
    rw [h2]
    unfold tryGetMultiDeploy
    rw [hacc]
  · intro m
    rw [h2]
    unfold tryGetMultiDeploy
    cases accessMultiDeploy
        (env.getPublisherModel call.model_name call.is_hugging_face_model) with
    | ok v => simp
    | error e => simp

/-- C5 witness: a validated model argument against a world without
`supportedActions` raises the `Model does not support deployment`
error. -/
theorem listDeploymentConfig_error_path_witness :
    ValidateModelGardenModelArgs
      { hugging_face_model := none, model := some "Google/Gemma2/Gemma2-9b" } = true ∧
    ∃ call : GetPublisherModelCall,
      (ListDeployMentConfig_Run sampleMgEnvNone
          { hugging_face_model := none, model := some "Google/Gemma2/Gemma2-9b" }).2 =
        [call] ∧
      (∀ emsg : String,
        accessMultiDeploy
            (sampleMgEnvNone.getPublisherModel call.model_name call.is_hugging_face_model) =
          Except.error emsg →
        (ListDeployMentConfig_Run sampleMgEnvNone
            { hugging_face_model := none, model := some "Google/Gemma2/Gemma2-9b" }).1 =
          CliOutcome.coreError multiDeployErrorMsg) ∧
      (∃ rest : String,
        multiDeployErrorMsg = "Model does not support deployment" ++ rest) ∧
      (∀ v : Nat,
        accessMultiDeploy
            (sampleMgEnvNone.getPublisherModel call.model_name call.is_hugging_face_model) =
          Except.ok v →
        (ListDeployMentConfig_Run sampleMgEnvNone
            { hugging_face_model := none, model := some "Google/Gemma2/Gemma2-9b" }).1 =
          CliOutcome.ok v) ∧
      (∀ m : String,
        (ListDeployMentConfig_Run sampleMgEnvNone
            { hugging_face_model := none, model := some "Google/Gemma2/Gemma2-9b" }).1 ≠
          CliOutcome.pyError m) :=
  ⟨by decide,
    listDeploymentConfig_error_path sampleMgEnvNone
      { hugging_face_model := none, model := some "Google/Gemma2/Gemma2-9b" } (by decide)⟩

/-- C4: model-name marshaling.  For `--hugging-face-model P/M` the name
passed to `GetPublisherModel` is
`publishers/ + lowercase(P) + /models/ + lowercase(M)` with
`is_hugging_face_model = true`; for `--model P/M/V` it is
`publishers/ + lowercase(P) + /models/ + lowercase(M) + @ + lowercase(V)`
with `is_hugging_face_model = false`; in both cases the name is a fixed
point of lowercasing (entirely lower case) regardless of the case of the
input. -/
theorem listDeploymentConfig_name_marshaling {μ : Type} (env : MgEnv μ)
    (P M V : String)
    (hp : ∀ c ∈ P.data, c ≠ '/') (hm : ∀ c ∈ M.data, c ≠ '/')
    (hv : ∀ c ∈ V.data, c ≠ '/') :
    ((ListDeployMentConfig_Run env
        { hugging_face_model := some (P ++ "/" ++ M), model := none }).2 =
      [{ model_name := "publishers/" ++ pyLower P ++ "/models/" ++ pyLower M,
         is_hugging_face_model := true }] ∧
      pyLower ("publishers/" ++ pyLower P ++ "/models/" ++ pyLower M) =
        "publishers/" ++ pyLower P ++ "/models/" ++ pyLower M) ∧
    ((ListDeployMentConfig_Run env
        { hugging_face_model := none, model := some (P ++ "/" ++ M ++ "/" ++ V) }).2 =
      [{ model_name :=
           "publishers/" ++ pyLower P ++ "/models/" ++ pyLower M ++ "@" ++ pyLower V,
         is_hugging_face_model := false }] ∧
      pyLower
          ("publishers/" ++ pyLower P ++ "/models/" ++ pyLower M ++ "@" ++ pyLower V) =
        "publishers/" ++ pyLower P ++ "/models/" ++ pyLower M ++ "@" ++ pyLower V) := by
  have hsplit2 := pySplit_pyLower_two P M hp hm
  have hsplit3 := pySplit_pyLower_three P M V hp hm hv
  have hval2 : ValidateModelGardenModelArgs
      { hugging_face_model := some (P ++ "/" ++ M), model := none } = true := by
    simp only [ValidateModelGardenModelArgs]
    rw [hsplit2]
    rfl
  have hval3 : ValidateModelGardenModelArgs
      { hugging_face_model := none, model := some (P ++ "/" ++ M ++ "/" ++ V) } = true := by
    simp only [ValidateModelGardenModelArgs]
    rw [hsplit3]
    rfl
  have hlit1 : pyLower "publishers/" = "publishers/" := by decide
  have hlit2 : pyLower "/models/" = "/models/" := by decide
  have hlit3 : pyLower "@" = "@" := by decide
  refine ⟨⟨?_, ?_⟩, ?_, ?_⟩
  · unfold ListDeployMentConfig_Run
    rw [if_pos hval2]
    simp only [GetMultiDeployRun, hsplit2]
  · rw [pyLower_append, pyLower_append, pyLower_append, hlit1, hlit2,
      pyLower_idem, pyLower_idem]
  · unfold ListDeployMentConfig_Run
    rw [if_pos hval3]
    simp only [GetMultiDeployRun, hsplit3]
  · rw [pyLower_append, pyLower_append, pyLower_append, pyLower_append, pyLower_append,
      hlit1, hlit2, hlit3, pyLower_idem, pyLower_idem, pyLower_idem]

/-- C4 witness: marshaling of the Hugging Face model name
`Meta-Llama/Meta-Llama-3-8B`. -/
theorem listDeploymentConfig_name_marshaling_witness :
    (∀ c ∈ "Meta-Llama".data, c ≠ '/') ∧
    (ListDeployMentConfig_Run sampleMgEnv
        { hugging_face_model := some ("Meta-Llama" ++ "/" ++ "Meta-Llama-3-8B"),
          model := none }).2 =
      [{ model_name :=
           "publishers/" ++ pyLower "Meta-Llama" ++ "/models/" ++ pyLower "Meta-Llama-3-8B",
         is_hugging_face_model := true }] :=
  ⟨by decide,
    (listDeploymentConfig_name_marshaling sampleMgEnv
      "Meta-Llama" "Meta-Llama-3-8B" "V1" (by decide) (by decide) (by decide)).1.1⟩

/-- C6: every method of every service class of the generated `SeclmV1`
client maps the remote method to a local function call and nothing more:
it resolves its own fixed `ApiMethodInfo` from the service's method table
and applies `_RunMethod` to that configuration, the request and the
global parameters, with no other computation and no transformation of
request or response. -/
theorem seclm_client_methods_passthrough {Req Resp GP : Type}
    (env : ApiClientEnv Req Resp GP) (request : Req) (global_params : Option GP) :
    Operations_Cancel env request global_params =
      some (env.runMethod Operations_Cancel_method_config request global_params) ∧
    Operations_Delete env request global_params =
      some (env.runMethod Operations_Delete_method_config request global_params) ∧
    Operations_Get env request global_params =
      some (env.runMethod Operations_Get_method_config request global_params) ∧
    Operations_List env request global_params =
      some (env.runMethod Operations_List_method_config request global_params) ∧
    Workbenches_Create env request global_params =
      some (env.runMethod Workbenches_Create_method_config request global_params) ∧
    Workbenches_Delete env request global_params =
      some (env.runMethod Workbenches_Delete_method_config request global_params) ∧
    Workbenches_Get env request global_params =
      some (env.runMethod Workbenches_Get_method_config request global_params) ∧
    Workbenches_List env request global_params =
      some (env.runMethod Workbenches_List_method_config request global_params) ∧
    Workbenches_Patch env request global_params =
      some (env.runMethod Workbenches_Patch_method_config request global_params) ∧
    Workbenches_Query env request global_params =
      some (env.runMethod Workbenches_Query_method_config request global_params) ∧
    Locations_Get env request global_params =
      some (env.runMethod Locations_Get_method_config request global_params) ∧
    Locations_List env request global_params =
      some (env.runMethod Locations_List_method_config request global_params) :=
  ⟨rfl, rfl, rfl, rfl, rfl, rfl, rfl, rfl, rfl, rfl, rfl, rfl⟩
